import Mathlib

/-!
Shallow embedding of `src/Update_device_twin/__init__.py`: an HTTP-triggered
handler that validates a request body, coerces schema-covered desired
properties of an IoT device twin to their declared types, and performs a
`get_twin` / `update_twin` pair against the twin store.

Python values appearing in a parsed JSON body are modelled by `JValue`.
Python `float` is modelled by `PyFloat` (a rational for finite values, plus
infinities and NaN); string-to-number conversion follows CPython `int()` and
`float()` on the JSON-representable inputs (ASCII whitespace stripping and
ASCII lowercasing are modelled; underscore digit separators and non-ASCII
digits are out of scope, as no datum in the repository uses them).
The store is modelled by the per-request outcome of its two operations, and
`main` returns the HTTP response together with the list of store calls made.
-/

namespace UpdateDeviceTwin

/-- Python `float` values: finite values are exact rationals; `infty`/`nan`
cover the non-finite values CPython's `float()` can produce from strings. -/
inductive PyFloat where
  | finite (q : ℚ)
  | infty (neg : Bool)
  | nan
deriving DecidableEq

/-- A Python value as obtained from `json.loads` (plus `bool`/`int`/`float`
distinctions used by the handler's `isinstance` checks). -/
inductive JValue where
  | jnull
  | jbool (b : Bool)
  | jint (n : Int)
  | jfloat (x : PyFloat)
  | jstr (s : String)
  | jarr (elems : List JValue)
  | jobj (entries : List (String × JValue))

/-- A Python `dict` with string keys, as an association list (first match wins
on lookup; Python dicts have unique keys, which updates preserve). -/
abbrev Dict := List (String × JValue)

/-- `m.get(key)` / `key in m` on a Python dict. -/
def lookup : Dict → String → Option JValue
  | [], _ => none
  | (k, v) :: rest, key => if k = key then some v else lookup rest key

/-- `m[key] = v` on a Python dict for a key already present: the value of the
entry with that key is replaced in place (key order preserved). -/
def setKey (m : Dict) (key : String) (v : JValue) : Dict :=
  m.map (fun p => if p.1 = key then (key, v) else p)

/-- The name of the Python type of a value, as used in CPython error texts. -/
def pythonTypeName : JValue → String
  | .jnull => "NoneType"
  | .jbool _ => "bool"
  | .jint _ => "int"
  | .jfloat _ => "float"
  | .jstr _ => "str"
  | .jarr _ => "list"
  | .jobj _ => "dict"

/-- Python generic truthiness `bool(v)` for JSON-representable values: never
raises; `0`/empty is `False`, nonzero/nonempty is `True`, NaN and the
infinities are `True`. -/
def pyTruthy : JValue → Bool
  | .jnull => false
  | .jbool b => b
  | .jint n => if n = 0 then false else true
  | .jfloat (.finite q) => if q = 0 then false else true
  | .jfloat _ => true
  | .jstr s => if s = "" then false else true
  | .jarr xs => !xs.isEmpty
  | .jobj kvs => !kvs.isEmpty

/-- ASCII lowercasing of one character, as Python `str.lower()` does on the
ASCII range (the only range exercised anywhere in the repository). -/
def charLower (c : Char) : Char :=
  if 65 ≤ c.toNat ∧ c.toNat ≤ 90 then Char.ofNat (c.toNat + 32) else c

/-- Python `str.lower()` on ASCII text. -/
def pyLower (s : String) : String :=
  String.mk (s.data.map charLower)

/-- Whitespace stripped by Python `str.strip()` / numeric conversions. -/
def isPySpace (c : Char) : Bool :=
  c = ' ' || c = '\t' || c = '\n' || c = '\r' || c = '\x0b' || c = '\x0c'

/-- The characters of `s` with leading and trailing whitespace removed, as
CPython's numeric constructors do before parsing. -/
def pyStrip (s : String) : List Char :=
  ((s.data.dropWhile isPySpace).reverse.dropWhile isPySpace).reverse

/-- The handler's boolean-string rule: `v.lower() in ['true', '1', 'yes', 'on']`. -/
def pyStrToBool (s : String) : Bool :=
  let l := pyLower s
  l == "true" || l == "1" || l == "yes" || l == "on"

/-- Value of a digit string (characters assumed to be ASCII digits). -/
def digitsToNat (cs : List Char) : Nat :=
  cs.foldl (fun acc c => acc * 10 + (c.toNat - 48)) 0

/-- CPython `int(s)` on a `str`: strip whitespace, optional sign, then a
nonempty run of digits; anything else raises `ValueError`. -/
def pyIntOfString (s : String) : Option Int :=
  let cs := pyStrip s
  match cs with
  | [] => none
  | c :: rest =>
    if c = '-' then
      if !rest.isEmpty && rest.all Char.isDigit then some (-(digitsToNat rest : Int)) else none
    else if c = '+' then
      if !rest.isEmpty && rest.all Char.isDigit then some ((digitsToNat rest : Int)) else none
    else
      if cs.all Char.isDigit then some ((digitsToNat cs : Int)) else none

/-- Split a character list at the first character satisfying `p`; the second
component is `none` when no such character occurs. -/
def splitOnChar (p : Char → Bool) : List Char → List Char × Option (List Char)
  | [] => ([], none)
  | c :: rest =>
    if p c then ([], some rest)
    else
      let r := splitOnChar p rest
      (c :: r.1, r.2)

/-- Parse a finite float body (already lowercased, sign removed into `neg`):
`digits [. digits] [e [sign] digits]`, with at least one mantissa digit. The
value `(ip + fp / 10 ^ |fp|) * 10 ^ ex` is built with `mkRat` over integer
arithmetic, which the parse of any decimal literal computes exactly. -/
def parseFiniteFloat (neg : Bool) (cs : List Char) : Option ℚ :=
  let mantExp := splitOnChar (fun c => c = 'e') cs
  let expVal : Option Int :=
    match mantExp.2 with
    | none => some 0
    | some e =>
      match e with
      | '-' :: ds =>
        if !ds.isEmpty && ds.all Char.isDigit then some (-(digitsToNat ds : Int)) else none
      | '+' :: ds =>
        if !ds.isEmpty && ds.all Char.isDigit then some ((digitsToNat ds : Int)) else none
      | ds =>
        if !ds.isEmpty && ds.all Char.isDigit then some ((digitsToNat ds : Int)) else none
  match expVal with
  | none => none
  | some ex =>
    let ipFp := splitOnChar (fun c => c = '.') mantExp.1
    let ip := ipFp.1
    let fp := (ipFp.2).getD []
    if ip.all Char.isDigit && fp.all Char.isDigit && !(ip.isEmpty && fp.isEmpty) then
      let base : Int :=
        (if neg then -1 else 1) *
          ((digitsToNat ip * 10 ^ fp.length + digitsToNat fp : Nat) : Int)
      if 0 ≤ ex then some (mkRat (base * (10 : Int) ^ ex.toNat) (10 ^ fp.length))
      else some (mkRat base (10 ^ fp.length * 10 ^ (-ex).toNat))
    else none

/-- CPython `float(s)` on a `str`: strip whitespace, optional sign, then a
finite decimal literal or (case-insensitively) `inf`/`infinity`/`nan`;
anything else raises `ValueError`. -/
def pyFloatOfString (s : String) : Option PyFloat :=
  let t := (pyStrip s).map charLower
  let signBody : Bool × List Char :=
    match t with
    | '-' :: rest => (true, rest)
    | '+' :: rest => (false, rest)
    | cs => (false, cs)
  let neg := signBody.1
  let body := signBody.2
  if body = "inf".data ∨ body = "infinity".data then some (.infty neg)
  else if body = "nan".data then some .nan
  else
    match parseFiniteFloat neg body with
    | some q => some (.finite q)
    | none => none

/-- Truncation toward zero, as CPython `int()` applied to a finite float. -/
def truncRat (q : ℚ) : Int := Int.tdiv q.num q.den

/-- A raised Python exception, split by whether `except ValueError` catches it. -/
inductive PyExn where
  | valueError (msg : String)
  | otherError (msg : String)
deriving DecidableEq

/-- Text of the `TypeError` raised by CPython `int(v)` for a value of a
non-numeric, non-string type `t`. -/
def intTypeErrMsg (t : String) : String :=
  "int() argument must be a string, a bytes-like object or a real number, not \x27" ++ t ++ "\x27"

/-- Text of the `TypeError` raised by CPython `float(v)` for a value of a
non-numeric, non-string type `t`. -/
def floatTypeErrMsg (t : String) : String :=
  "float() argument must be a string or a real number, not \x27" ++ t ++ "\x27"

/-- CPython `int(v)` on a JSON-representable value. Booleans are ints
(`int` subclass); floats truncate toward zero, with NaN a `ValueError` and the
infinities an `OverflowError`; strings parse or raise `ValueError`; `None`,
lists and dicts raise `TypeError`. -/
def pyInt : JValue → Except PyExn Int
  | .jbool b => .ok (if b then 1 else 0)
  | .jint n => .ok n
  | .jfloat (.finite q) => .ok (truncRat q)
  | .jfloat (.infty _) => .error (.otherError "cannot convert float infinity to integer")
  | .jfloat .nan => .error (.valueError "cannot convert float NaN to integer")
  | .jstr s =>
    match pyIntOfString s with
    | some n => .ok n
    | none =>
      .error (.valueError ("invalid literal for int() with base 10: \x27" ++ s ++ "\x27"))
  | .jnull => .error (.otherError (intTypeErrMsg "NoneType"))
  | .jarr _ => .error (.otherError (intTypeErrMsg "list"))
  | .jobj _ => .error (.otherError (intTypeErrMsg "dict"))

/-- CPython `float(v)` on a JSON-representable value. Booleans and ints
convert exactly; strings parse or raise `ValueError`; `None`, lists and dicts
raise `TypeError`. -/
def pyFloatFn : JValue → Except PyExn PyFloat
  | .jbool b => .ok (.finite (if b then mkRat 1 1 else mkRat 0 1))
  | .jint n => .ok (.finite (mkRat n 1))
  | .jfloat x => .ok x
  | .jstr s =>
    match pyFloatOfString s with
    | some x => .ok x
    | none =>
      .error (.valueError ("could not convert string to float: \x27" ++ s ++ "\x27"))
  | .jnull => .error (.otherError (floatTypeErrMsg "NoneType"))
  | .jarr _ => .error (.otherError (floatTypeErrMsg "list"))
  | .jobj _ => .error (.otherError (floatTypeErrMsg "dict"))

/-- Outcome of the coercion block: a coerced dict, an early 400 response body
(from `except ValueError`), or an uncaught exception that reaches the
handler's top-level `except Exception`. -/
inductive CoErr where
  | resp400 (body : String)
  | raised (msg : String)
deriving DecidableEq

/-- One boolean-field block, e.g. for `DemoMode`: when present and not already
a `bool`, a string goes through the lowercase membership test and any other
value through `bool(v)`; this never raises. -/
def coerceBoolField (name : String) (m : Dict) : Dict :=
  match lookup m name with
  | none => m
  | some (.jbool _) => m
  | some (.jstr s) => setKey m name (.jbool (pyStrToBool s))
  | some v => setKey m name (.jbool (pyTruthy v))

/-- One integer-field block, e.g. for `DeviceModel`: `isinstance(v, int)` is
true for `bool` and `int` (kept unchanged); otherwise `int(v)` is attempted,
`ValueError` becomes the 400 response `"<name> must be a valid integer."`,
and any other exception propagates. -/
def coerceIntField (name : String) (m : Dict) : Except CoErr Dict :=
  match lookup m name with
  | none => .ok m
  | some v =>
    match v with
    | .jbool _ => .ok m
    | .jint _ => .ok m
    | _ =>
      match pyInt v with
      | .ok n => .ok (setKey m name (.jint n))
      | .error (.valueError _) => .error (.resp400 (name ++ " must be a valid integer."))
      | .error (.otherError e) => .error (.raised e)

/-- One float-field block, e.g. for `currentCalibration`:
`isinstance(v, (int, float))` is true for `bool`, `int` and `float` (kept
unchanged); otherwise `float(v)` is attempted, `ValueError` becomes the 400
response `"<name> must be a valid number."`, any other exception propagates. -/
def coerceFloatField (name : String) (m : Dict) : Except CoErr Dict :=
  match lookup m name with
  | none => .ok m
  | some v =>
    match v with
    | .jbool _ => .ok m
    | .jint _ => .ok m
    | .jfloat _ => .ok m
    | _ =>
      match pyFloatFn v with
      | .ok x => .ok (setKey m name (.jfloat x))
      | .error (.valueError _) => .error (.resp400 (name ++ " must be a valid number."))
      | .error (.otherError e) => .error (.raised e)

/-- The eight schema-covered property names, in the order the handler checks
them. -/
def schemaKeys : List String :=
  ["DemoMode", "DeviceModel", "ExternalControl", "FlowState",
   "PressureState", "VoCuState", "currentCalibration", "flowMeterCalibration"]

/-- The handler's coercion block over `desired_props`, in source order
(`DemoMode`, `DeviceModel`, `ExternalControl`, `FlowState`, `PressureState`,
`VoCuState`, `currentCalibration`, `flowMeterCalibration`), with the source's
short-circuiting return on the first failing field. -/
def coerceDesired (m : Dict) : Except CoErr Dict :=
  match coerceIntField "DeviceModel" (coerceBoolField "DemoMode" m) with
  | .error e => .error e
  | .ok m2 =>
    match coerceIntField "ExternalControl" m2 with
    | .error e => .error e
    | .ok m3 =>
      match coerceFloatField "currentCalibration"
          (coerceBoolField "VoCuState"
            (coerceBoolField "PressureState" (coerceBoolField "FlowState" m3))) with
      | .error e => .error e
      | .ok m7 => coerceFloatField "flowMeterCalibration" m7

/-- Rendering of a float by `repr`/`json.dumps` — exact for the decimal values
the handler can produce from JSON input; digits beyond 17 places are cut, and
no verified claim depends on this text. -/
def fracDigitString (num den : Nat) (fuel : Nat) : String :=
  match fuel with
  | 0 => ""
  | fuel' + 1 =>
    if num = 0 then ""
    else toString ((num * 10) / den) ++ fracDigitString ((num * 10) % den) den fuel'

/-- Decimal rendering of a Python float, as in `json.dumps`. -/
def pyFloatRepr : PyFloat → String
  | .finite q =>
    let sgn := if q.num < 0 then "-" else ""
    let n := q.num.natAbs
    let ip := n / q.den
    let fp := n % q.den
    if fp = 0 then sgn ++ toString ip ++ ".0"
    else sgn ++ toString ip ++ "." ++ fracDigitString fp q.den 17
  | .infty true => "-Infinity"
  | .infty false => "Infinity"
  | .nan => "NaN"

/-- JSON string escaping as in `json.dumps` (quote and backslash; control and
non-ASCII escapes are out of scope, no verified claim depends on this text). -/
def jsonEscape (s : String) : String :=
  s.data.foldl
    (fun acc c =>
      if c = '"' then acc ++ "\\\""
      else if c = '\\' then acc ++ "\\\\"
      else acc ++ String.singleton c) ""

mutual

/-- `json.dumps(v)` with the default separators. -/
def jsonDumps : JValue → String
  | .jnull => "null"
  | .jbool true => "true"
  | .jbool false => "false"
  | .jint n => toString n
  | .jfloat x => pyFloatRepr x
  | .jstr s => "\"" ++ jsonEscape s ++ "\""
  | .jarr xs => "[" ++ jsonDumpsList xs ++ "]"
  | .jobj kvs => "\x7b" ++ jsonDumpsObj kvs ++ "\x7d"

/-- Comma-joined rendering of array elements. -/
def jsonDumpsList : List JValue → String
  | [] => ""
  | [x] => jsonDumps x
  | x :: rest => jsonDumps x ++ ", " ++ jsonDumpsList rest

/-- Comma-joined rendering of object entries. -/
def jsonDumpsObj : List (String × JValue) → String
  | [] => ""
  | [(k, v)] => "\"" ++ jsonEscape k ++ "\": " ++ jsonDumps v
  | (k, v) :: rest =>
    "\"" ++ jsonEscape k ++ "\": " ++ jsonDumps v ++ ", " ++ jsonDumpsObj rest

end

/-- Python `str(v)` as interpolated into the success message (`repr`-based
rendering of containers is approximated by their JSON text; every request in
the verified claims carries a string `deviceId`, for which this is exact). -/
def pyStr : JValue → String
  | .jstr s => s
  | .jbool true => "True"
  | .jbool false => "False"
  | .jint n => toString n
  | .jfloat x => pyFloatRepr x
  | .jnull => "None"
  | v => jsonDumps v

/-- An HTTP response: status code and body text. -/
structure HttpResponse where
  status : Nat
  body : String
deriving DecidableEq

/-- One call made to the twin store, in order. -/
inductive StoreEvent where
  | getTwin (deviceId : JValue)
  | updateTwin (deviceId : JValue) (patch : JValue) (etag : String)

/-- The store's per-request behaviour: what `get_twin` returns (an etag, or a
raised exception's text) and whether `update_twin` succeeds. Each operation is
called at most once per request, so a fixed outcome per operation is faithful. -/
structure Store where
  getTwinResult : Except String String
  updateTwinResult : Except String Unit

/-- Body of the 500 response when the connection string is missing. -/
def connStrErrorBody : String := "Internal error: Missing IoT Hub connection string"

/-- Body of the 400 response for a failed request-shape validation. -/
def validationErrorBody : String :=
  "Request must include \x27deviceId\x27 (string) and \x27desired\x27 (object)."

/-- Body of the catch-all 500 response: `"Internal server error: " + str(e)`. -/
def serverErrorBody (msg : String) : String := "Internal server error: " ++ msg

/-- Text of the `AttributeError` raised by `body.get(...)` when the parsed
JSON body is not an object. -/
def attrErrorMsg (t : String) : String :=
  "\x27" ++ t ++ "\x27 object has no attribute \x27get\x27"

/-- The wire payload sent to the store. -/
def mkPatch (m : Dict) : JValue :=
  .jobj [("properties", .jobj [("desired", .jobj m)])]

/-- Body of the 200 response. -/
def successBody (dv : JValue) (m : Dict) : String :=
  "Successfully updated twin for device \x27" ++ pyStr dv ++
    "\x27 with properties: " ++ jsonDumps (.jobj m)

/-- The part of the handler after shape validation succeeds (source lines
46-150): run the coercion block, then on success perform `get_twin` followed
by `update_twin` conditioned on the returned etag, mapping any raised store
exception to the catch-all 500. -/
def handleValidated (dv : JValue) (dm : Dict) (store : Store) :
    HttpResponse × List StoreEvent :=
  match coerceDesired dm with
  | .error (.resp400 msg) => (⟨400, msg⟩, [])
  | .error (.raised msg) => (⟨500, serverErrorBody msg⟩, [])
  | .ok m =>
    match store.getTwinResult with
    | .error e => (⟨500, serverErrorBody e⟩, [.getTwin dv])
    | .ok etag =>
      match store.updateTwinResult with
      | .error e =>
        (⟨500, serverErrorBody e⟩, [.getTwin dv, .updateTwin dv (mkPatch m) etag])
      | .ok _ =>
        (⟨200, successBody dv m⟩, [.getTwin dv, .updateTwin dv (mkPatch m) etag])

/-- The part of the handler from a parsed JSON object body (source lines
22-29 and onward): `body.get` the two fields, answer 400 when `deviceId` is
falsy or `desired` is not a dict, else continue. -/
def handleBody (kvs : Dict) (store : Store) : HttpResponse × List StoreEvent :=
  match lookup kvs "deviceId", lookup kvs "desired" with
  | some dv, some (.jobj dm) =>
    if pyTruthy dv then handleValidated dv dm store
    else (⟨400, validationErrorBody⟩, [])
  | _, _ => (⟨400, validationErrorBody⟩, [])

/-- The handler `main`, as a function of the connection-string environment
value, the JSON-parse outcome of the request body (evaluated only after the
connection-string check, as in the source), and the store's behaviour.
Returns the HTTP response and the ordered list of store calls made. -/
def main (connStr : Option String) (parsedBody : Except String JValue) (store : Store) :
    HttpResponse × List StoreEvent :=
  match connStr with
  | none => (⟨500, connStrErrorBody⟩, [])
  | some c =>
    if c = "" then (⟨500, connStrErrorBody⟩, [])
    else
      match parsedBody with
      | .error e => (⟨500, serverErrorBody e⟩, [])
      | .ok bodyVal =>
        match bodyVal with
        | .jobj kvs => handleBody kvs store
        | _ => (⟨500, serverErrorBody (attrErrorMsg (pythonTypeName bodyVal))⟩, [])

/-! Shapes of coerced values: a value is "stable" for a target type when the
corresponding `isinstance` check accepts it, so the block keeps it unchanged. -/

/-- The boolean block keeps values of this shape unchanged. -/
def boolStableO (o : Option JValue) : Prop :=
  o = none ∨ ∃ b, o = some (.jbool b)

/-- The integer block keeps values of this shape unchanged
(`isinstance(v, int)` is true for `bool` and `int`). -/
def intStableO (o : Option JValue) : Prop :=
  boolStableO o ∨ ∃ n, o = some (.jint n)

/-- The float block keeps values of this shape unchanged
(`isinstance(v, (int, float))` is true for `bool`, `int` and `float`). -/
def floatStableO (o : Option JValue) : Prop :=
  intStableO o ∨ ∃ x, o = some (.jfloat x)

/-! Basic lemmas about the dict operations. -/

theorem lookup_setKey (m : Dict) (k key : String) (v : JValue) :
    lookup (setKey m k v) key =
      if key = k then Option.map (fun _ => v) (lookup m k) else lookup m key := by
  induction m with
  | nil => by_cases h : key = k <;> simp [setKey, lookup, h]
  | cons p rest ih =>
    obtain ⟨a, b⟩ := p
    have hcons : setKey ((a, b) :: rest) k v
        = (if a = k then (k, v) else (a, b)) :: setKey rest k v := rfl
    rw [hcons]
    by_cases hak : a = k
    · rw [if_pos hak]
      subst hak
      by_cases hk : key = a
      · subst hk
        simp [lookup, ih]
      · simp [lookup, hk, Ne.symm hk, ih]
    · rw [if_neg hak]
      by_cases hk : key = a
      · subst hk
        have hkk : ¬ key = k := hak
        simp [lookup, hkk, ih]
      · simp [lookup, hk, Ne.symm hk, hak, ih]

theorem lookup_setKey_ne (m : Dict) (k key : String) (v : JValue) (h : key ≠ k) :
    lookup (setKey m k v) key = lookup m key := by
  rw [lookup_setKey, if_neg h]

theorem lookup_setKey_self (m : Dict) (k : String) (v v₀ : JValue)
    (h : lookup m k = some v₀) : lookup (setKey m k v) k = some v := by
  rw [lookup_setKey, if_pos rfl, h]
  rfl

theorem keys_setKey (m : Dict) (k : String) (v : JValue) :
    (setKey m k v).map Prod.fst = m.map Prod.fst := by
  induction m with
  | nil => rfl
  | cons p rest ih =>
    obtain ⟨a, b⟩ := p
    have hcons : setKey ((a, b) :: rest) k v
        = (if a = k then (k, v) else (a, b)) :: setKey rest k v := rfl
    rw [hcons]
    by_cases h : a = k
    · subst h
      simp [ih]
    · simp [h, ih]

theorem lookup_eq_none_of_forall_ne (m : Dict) (name : String)
    (h : ∀ p ∈ m, p.1 ≠ name) : lookup m name = none := by
  induction m with
  | nil => rfl
  | cons p rest ih =>
    have hp := h p (by simp)
    simp [lookup, hp]
    exact ih (fun q hq => h q (by simp [hq]))

/-! Behaviour of the three per-field blocks. -/

theorem coerceBoolField_lookup_ne (name k : String) (m : Dict) (h : k ≠ name) :
    lookup (coerceBoolField name m) k = lookup m k := by
  unfold coerceBoolField
  cases hl : lookup m name with
  | none => rfl
  | some v => cases v <;> simp [lookup_setKey_ne _ _ _ _ h]

theorem keys_coerceBoolField (name : String) (m : Dict) :
    (coerceBoolField name m).map Prod.fst = m.map Prod.fst := by
  unfold coerceBoolField
  cases hl : lookup m name with
  | none => rfl
  | some v => cases v <;> simp [keys_setKey]

theorem coerceBoolField_stable (name : String) (m : Dict) :
    boolStableO (lookup (coerceBoolField name m) name) := by
  unfold coerceBoolField
  cases hl : lookup m name with
  | none => exact Or.inl hl
  | some v =>
    cases v with
    | jbool b => exact Or.inr ⟨b, hl⟩
    | jnull => exact Or.inr ⟨_, lookup_setKey_self m name _ _ hl⟩
    | jint n => exact Or.inr ⟨_, lookup_setKey_self m name _ _ hl⟩
    | jfloat x => exact Or.inr ⟨_, lookup_setKey_self m name _ _ hl⟩
    | jstr s => exact Or.inr ⟨_, lookup_setKey_self m name _ _ hl⟩
    | jarr xs => exact Or.inr ⟨_, lookup_setKey_self m name _ _ hl⟩
    | jobj kvs => exact Or.inr ⟨_, lookup_setKey_self m name _ _ hl⟩

theorem coerceBoolField_id (name : String) (m : Dict) (h : boolStableO (lookup m name)) :
    coerceBoolField name m = m := by
  unfold coerceBoolField
  rcases h with h | ⟨b, h⟩ <;> rw [h]

theorem coerceBoolField_preserves_jbool (name k : String) (m : Dict) (b : Bool)
    (h : lookup m k = some (.jbool b)) :
    lookup (coerceBoolField name m) k = some (.jbool b) := by
  by_cases hk : k = name
  · subst hk
    rw [coerceBoolField_id k m (Or.inr ⟨b, h⟩)]
    exact h
  · rw [coerceBoolField_lookup_ne name k m hk]
    exact h

theorem coerceIntField_id (name : String) (m : Dict) (h : intStableO (lookup m name)) :
    coerceIntField name m = .ok m := by
  unfold coerceIntField
  rcases h with (h | ⟨b, h⟩) | ⟨n, h⟩ <;> rw [h]

theorem coerceIntField_ok_cases (name : String) (m m' : Dict)
    (h : coerceIntField name m = .ok m') :
    m' = m ∨ ∃ n, m' = setKey m name (.jint n) := by
  unfold coerceIntField at h
  cases hl : lookup m name with
  | none => rw [hl] at h; exact Or.inl (by injection h |>.symm)
  | some v =>
    rw [hl] at h
    cases v with
    | jbool b => exact Or.inl (by injection h |>.symm)
    | jint n => exact Or.inl (by injection h |>.symm)
    | jfloat x =>
      cases x with
      | finite q => exact Or.inr ⟨truncRat q, by injection h |>.symm⟩
      | infty neg => exact absurd h (by simp [pyInt])
      | nan => exact absurd h (by simp [pyInt])
    | jstr s =>
      cases hp : pyIntOfString s with
      | some n =>
        simp only [pyInt, hp] at h
        exact Or.inr ⟨n, by injection h |>.symm⟩
      | none => simp only [pyInt, hp] at h; exact absurd h (by simp)
    | jnull => exact absurd h (by simp [pyInt])
    | jarr xs => exact absurd h (by simp [pyInt])
    | jobj kvs => exact absurd h (by simp [pyInt])

theorem coerceIntField_lookup_ne (name k : String) (m m' : Dict)
    (h : coerceIntField name m = .ok m') (hk : k ≠ name) :
    lookup m' k = lookup m k := by
  rcases coerceIntField_ok_cases name m m' h with rfl | ⟨n, rfl⟩
  · rfl
  · exact lookup_setKey_ne _ _ _ _ hk

theorem keys_coerceIntField (name : String) (m m' : Dict)
    (h : coerceIntField name m = .ok m') :
    m'.map Prod.fst = m.map Prod.fst := by
  rcases coerceIntField_ok_cases name m m' h with rfl | ⟨n, rfl⟩
  · rfl
  · exact keys_setKey _ _ _

theorem coerceIntField_stable (name : String) (m m' : Dict)
    (h : coerceIntField name m = .ok m') :
    intStableO (lookup m' name) := by
  unfold coerceIntField at h
  cases hl : lookup m name with
  | none =>
    rw [hl] at h
    have hm : m = m' := by injection h
    exact Or.inl (Or.inl (hm ▸ hl))
  | some v =>
    rw [hl] at h
    cases v with
    | jbool b =>
      have hm : m = m' := by injection h
      exact Or.inl (Or.inr ⟨b, hm ▸ hl⟩)
    | jint n =>
      have hm : m = m' := by injection h
      exact Or.inr ⟨n, hm ▸ hl⟩
    | jfloat x =>
      cases x with
      | finite q =>
        have hm : setKey m name (.jint (truncRat q)) = m' := by injection h
        exact Or.inr ⟨truncRat q, hm ▸ lookup_setKey_self m name _ _ hl⟩
      | infty neg => exact absurd h (by simp [pyInt])
      | nan => exact absurd h (by simp [pyInt])
    | jstr s =>
      cases hp : pyIntOfString s with
      | some n =>
        simp only [pyInt, hp] at h
        have hm : setKey m name (.jint n) = m' := by injection h
        exact Or.inr ⟨n, hm ▸ lookup_setKey_self m name _ _ hl⟩
      | none => simp only [pyInt, hp] at h; exact absurd h (by simp)
    | jnull => exact absurd h (by simp [pyInt])
    | jarr xs => exact absurd h (by simp [pyInt])
    | jobj kvs => exact absurd h (by simp [pyInt])

theorem coerceIntField_jstr_fail (name : String) (m : Dict) (s : String)
    (hl : lookup m name = some (.jstr s)) (hp : pyIntOfString s = none) :
    coerceIntField name m = .error (.resp400 (name ++ " must be a valid integer.")) := by
  unfold coerceIntField
  rw [hl]
  simp [pyInt, hp]

theorem coerceIntField_jstr_ok (name : String) (m : Dict) (s : String) (n : Int)
    (hl : lookup m name = some (.jstr s)) (hp : pyIntOfString s = some n) :
    coerceIntField name m = .ok (setKey m name (.jint n)) := by
  unfold coerceIntField
  rw [hl]
  simp [pyInt, hp]

theorem coerceIntField_raised (name : String) (m : Dict) (v : JValue) (e : String)
    (hl : lookup m name = some v) (he : pyInt v = .error (.otherError e)) :
    coerceIntField name m = .error (.raised e) := by
  unfold coerceIntField
  rw [hl]
  cases v <;> simp_all [pyInt]

theorem coerceFloatField_id (name : String) (m : Dict) (h : floatStableO (lookup m name)) :
    coerceFloatField name m = .ok m := by
  unfold coerceFloatField
  rcases h with ((h | ⟨b, h⟩) | ⟨n, h⟩) | ⟨x, h⟩ <;> rw [h]

theorem coerceFloatField_ok_cases (name : String) (m m' : Dict)
    (h : coerceFloatField name m = .ok m') :
    m' = m ∨ ∃ x, m' = setKey m name (.jfloat x) := by
  unfold coerceFloatField at h
  cases hl : lookup m name with
  | none => rw [hl] at h; exact Or.inl (by injection h |>.symm)
  | some v =>
    rw [hl] at h
    cases v with
    | jbool b => exact Or.inl (by injection h |>.symm)
    | jint n => exact Or.inl (by injection h |>.symm)
    | jfloat x => exact Or.inl (by injection h |>.symm)
    | jstr s =>
      cases hp : pyFloatOfString s with
      | some x =>
        simp only [pyFloatFn, hp] at h
        exact Or.inr ⟨x, by injection h |>.symm⟩
      | none => simp only [pyFloatFn, hp] at h; exact absurd h (by simp)
    | jnull => exact absurd h (by simp [pyFloatFn])
    | jarr xs => exact absurd h (by simp [pyFloatFn])
    | jobj kvs => exact absurd h (by simp [pyFloatFn])

theorem coerceFloatField_lookup_ne (name k : String) (m m' : Dict)
    (h : coerceFloatField name m = .ok m') (hk : k ≠ name) :
    lookup m' k = lookup m k := by
  rcases coerceFloatField_ok_cases name m m' h with rfl | ⟨x, rfl⟩
  · rfl
  · exact lookup_setKey_ne _ _ _ _ hk

theorem keys_coerceFloatField (name : String) (m m' : Dict)
    (h : coerceFloatField name m = .ok m') :
    m'.map Prod.fst = m.map Prod.fst := by
  rcases coerceFloatField_ok_cases name m m' h with rfl | ⟨x, rfl⟩
  · rfl
  · exact keys_setKey _ _ _

theorem coerceFloatField_stable (name : String) (m m' : Dict)
    (h : coerceFloatField name m = .ok m') :
    floatStableO (lookup m' name) := by
  unfold coerceFloatField at h
  cases hl : lookup m name with
  | none =>
    rw [hl] at h
    have hm : m = m' := by injection h
    exact Or.inl (Or.inl (Or.inl (hm ▸ hl)))
  | some v =>
    rw [hl] at h
    cases v with
    | jbool b =>
      have hm : m = m' := by injection h
      exact Or.inl (Or.inl (Or.inr ⟨b, hm ▸ hl⟩))
    | jint n =>
      have hm : m = m' := by injection h
      exact Or.inl (Or.inr ⟨n, hm ▸ hl⟩)
    | jfloat x =>
      have hm : m = m' := by injection h
      exact Or.inr ⟨x, hm ▸ hl⟩
    | jstr s =>
      cases hp : pyFloatOfString s with
      | some x =>
        simp only [pyFloatFn, hp] at h
        have hm : setKey m name (.jfloat x) = m' := by injection h
        exact Or.inr ⟨x, hm ▸ lookup_setKey_self m name _ _ hl⟩
      | none => simp only [pyFloatFn, hp] at h; exact absurd h (by simp)
    | jnull => exact absurd h (by simp [pyFloatFn])
    | jarr xs => exact absurd h (by simp [pyFloatFn])
    | jobj kvs => exact absurd h (by simp [pyFloatFn])

theorem coerceFloatField_jstr_fail (name : String) (m : Dict) (s : String)
    (hl : lookup m name = some (.jstr s)) (hp : pyFloatOfString s = none) :
    coerceFloatField name m = .error (.resp400 (name ++ " must be a valid number.")) := by
  unfold coerceFloatField
  rw [hl]
  simp [pyFloatFn, hp]

theorem coerceFloatField_jstr_ok (name : String) (m : Dict) (s : String) (x : PyFloat)
    (hl : lookup m name = some (.jstr s)) (hp : pyFloatOfString s = some x) :
    coerceFloatField name m = .ok (setKey m name (.jfloat x)) := by
  unfold coerceFloatField
  rw [hl]
  simp [pyFloatFn, hp]

theorem coerceFloatField_raised (name : String) (m : Dict) (v : JValue) (e : String)
    (hl : lookup m name = some v) (he : pyFloatFn v = .error (.otherError e)) :
    coerceFloatField name m = .error (.raised e) := by
  unfold coerceFloatField
  rw [hl]
  cases v <;> simp_all [pyFloatFn]

theorem coerceIntField_preserves_jbool (name k : String) (m m' : Dict) (b : Bool)
    (h : coerceIntField name m = .ok m') (hl : lookup m k = some (.jbool b)) :
    lookup m' k = some (.jbool b) := by
  by_cases hk : k = name
  · subst hk
    rw [coerceIntField_id k m (Or.inl (Or.inr ⟨b, hl⟩))] at h
    injection h with h'
    rw [← h']
    exact hl
  · rw [coerceIntField_lookup_ne name k m m' h hk]
    exact hl

theorem coerceFloatField_preserves_jbool (name k : String) (m m' : Dict) (b : Bool)
    (h : coerceFloatField name m = .ok m') (hl : lookup m k = some (.jbool b)) :
    lookup m' k = some (.jbool b) := by
  by_cases hk : k = name
  · subst hk
    rw [coerceFloatField_id k m (Or.inl (Or.inl (Or.inr ⟨b, hl⟩)))] at h
    injection h with h'
    rw [← h']
    exact hl
  · rw [coerceFloatField_lookup_ne name k m m' h hk]
    exact hl

/-! Behaviour of the whole coercion block. -/

theorem coerceDesired_ok_elim (dm m' : Dict) (h : coerceDesired dm = .ok m') :
    ∃ m2 m3 m7,
      coerceIntField "DeviceModel" (coerceBoolField "DemoMode" dm) = .ok m2 ∧
      coerceIntField "ExternalControl" m2 = .ok m3 ∧
      coerceFloatField "currentCalibration"
        (coerceBoolField "VoCuState"
          (coerceBoolField "PressureState" (coerceBoolField "FlowState" m3))) = .ok m7 ∧
      coerceFloatField "flowMeterCalibration" m7 = .ok m' := by
  unfold coerceDesired at h
  split at h
  next e heq => simp at h
  next m2 heq1 =>
    split at h
    next e heq => simp at h
    next m3 heq2 =>
      split at h
      next e heq => simp at h
      next m7 heq3 => exact ⟨m2, m3, m7, heq1, heq2, heq3, h⟩

theorem coerceDesired_lookup_ne_schema (dm m' : Dict) (k : String)
    (h : coerceDesired dm = .ok m') (hk : k ∉ schemaKeys) :
    lookup m' k = lookup dm k := by
  simp only [schemaKeys, List.mem_cons, List.not_mem_nil, or_false] at hk
  push_neg at hk
  obtain ⟨k1, k2, k3, k4, k5, k6, k7, k8⟩ := hk
  obtain ⟨m2, m3, m7, h1, h2, h3, h4⟩ := coerceDesired_ok_elim dm m' h
  rw [coerceFloatField_lookup_ne _ _ _ _ h4 k8,
    coerceFloatField_lookup_ne _ _ _ _ h3 k7,
    coerceBoolField_lookup_ne _ _ _ k6,
    coerceBoolField_lookup_ne _ _ _ k5,
    coerceBoolField_lookup_ne _ _ _ k4,
    coerceIntField_lookup_ne _ _ _ _ h2 k3,
    coerceIntField_lookup_ne _ _ _ _ h1 k2,
    coerceBoolField_lookup_ne _ _ _ k1]

theorem coerceDesired_keys (dm m' : Dict) (h : coerceDesired dm = .ok m') :
    m'.map Prod.fst = dm.map Prod.fst := by
  obtain ⟨m2, m3, m7, h1, h2, h3, h4⟩ := coerceDesired_ok_elim dm m' h
  rw [keys_coerceFloatField _ _ _ h4, keys_coerceFloatField _ _ _ h3,
    keys_coerceBoolField, keys_coerceBoolField, keys_coerceBoolField,
    keys_coerceIntField _ _ _ h2, keys_coerceIntField _ _ _ h1, keys_coerceBoolField]

theorem coerceDesired_preserves_jbool (dm m' : Dict) (k : String) (b : Bool)
    (h : coerceDesired dm = .ok m') (hl : lookup dm k = some (.jbool b)) :
    lookup m' k = some (.jbool b) := by
  obtain ⟨m2, m3, m7, h1, h2, h3, h4⟩ := coerceDesired_ok_elim dm m' h
  exact coerceFloatField_preserves_jbool _ _ _ _ _ h4
    (coerceFloatField_preserves_jbool _ _ _ _ _ h3
      (coerceBoolField_preserves_jbool _ _ _ _
        (coerceBoolField_preserves_jbool _ _ _ _
          (coerceBoolField_preserves_jbool _ _ _ _
            (coerceIntField_preserves_jbool _ _ _ _ _ h2
              (coerceIntField_preserves_jbool _ _ _ _ _ h1
                (coerceBoolField_preserves_jbool _ _ _ _ hl)))))))

/-- After a successful coercion pass, every schema-covered key holds a value
its own `isinstance` check accepts, so a second pass keeps it unchanged. -/
theorem coerceDesired_stable (dm m' : Dict) (h : coerceDesired dm = .ok m') :
    boolStableO (lookup m' "DemoMode") ∧ intStableO (lookup m' "DeviceModel") ∧
    intStableO (lookup m' "ExternalControl") ∧ boolStableO (lookup m' "FlowState") ∧
    boolStableO (lookup m' "PressureState") ∧ boolStableO (lookup m' "VoCuState") ∧
    floatStableO (lookup m' "currentCalibration") ∧
    floatStableO (lookup m' "flowMeterCalibration") := by
  obtain ⟨m2, m3, m7, h1, h2, h3, h4⟩ := coerceDesired_ok_elim dm m' h
  refine ⟨?_, ?_, ?_, ?_, ?_, ?_, ?_, ?_⟩
  · have s := coerceBoolField_stable "DemoMode" dm
    have e : lookup m' "DemoMode" = lookup (coerceBoolField "DemoMode" dm) "DemoMode" := by
      rw [coerceFloatField_lookup_ne _ _ _ _ h4 (by decide),
        coerceFloatField_lookup_ne _ _ _ _ h3 (by decide),
        coerceBoolField_lookup_ne _ _ _ (by decide),
        coerceBoolField_lookup_ne _ _ _ (by decide),
        coerceBoolField_lookup_ne _ _ _ (by decide),
        coerceIntField_lookup_ne _ _ _ _ h2 (by decide),
        coerceIntField_lookup_ne _ _ _ _ h1 (by decide)]
    rw [e]
    exact s
  · have s := coerceIntField_stable _ _ _ h1
    have e : lookup m' "DeviceModel" = lookup m2 "DeviceModel" := by
      rw [coerceFloatField_lookup_ne _ _ _ _ h4 (by decide),
        coerceFloatField_lookup_ne _ _ _ _ h3 (by decide),
        coerceBoolField_lookup_ne _ _ _ (by decide),
        coerceBoolField_lookup_ne _ _ _ (by decide),
        coerceBoolField_lookup_ne _ _ _ (by decide),
        coerceIntField_lookup_ne _ _ _ _ h2 (by decide)]
    rw [e]
    exact s
  · have s := coerceIntField_stable _ _ _ h2
    have e : lookup m' "ExternalControl" = lookup m3 "ExternalControl" := by
      rw [coerceFloatField_lookup_ne _ _ _ _ h4 (by decide),
        coerceFloatField_lookup_ne _ _ _ _ h3 (by decide),
        coerceBoolField_lookup_ne _ _ _ (by decide),
        coerceBoolField_lookup_ne _ _ _ (by decide),
        coerceBoolField_lookup_ne _ _ _ (by decide)]
    rw [e]
    exact s
  · have s := coerceBoolField_stable "FlowState" m3
    have e : lookup m' "FlowState" = lookup (coerceBoolField "FlowState" m3) "FlowState" := by
      rw [coerceFloatField_lookup_ne _ _ _ _ h4 (by decide),
        coerceFloatField_lookup_ne _ _ _ _ h3 (by decide),
        coerceBoolField_lookup_ne _ _ _ (by decide),
        coerceBoolField_lookup_ne _ _ _ (by decide)]
    rw [e]
    exact s
  · have s := coerceBoolField_stable "PressureState"
      (coerceBoolField "FlowState" m3)
    have e : lookup m' "PressureState"
        = lookup (coerceBoolField "PressureState" (coerceBoolField "FlowState" m3))
            "PressureState" := by
      rw [coerceFloatField_lookup_ne _ _ _ _ h4 (by decide),
        coerceFloatField_lookup_ne _ _ _ _ h3 (by decide),
        coerceBoolField_lookup_ne _ _ _ (by decide)]
    rw [e]
    exact s
  · have s := coerceBoolField_stable "VoCuState"
      (coerceBoolField "PressureState" (coerceBoolField "FlowState" m3))
    have e : lookup m' "VoCuState"
        = lookup (coerceBoolField "VoCuState"
            (coerceBoolField "PressureState" (coerceBoolField "FlowState" m3))) "VoCuState" := by
      rw [coerceFloatField_lookup_ne _ _ _ _ h4 (by decide),
        coerceFloatField_lookup_ne _ _ _ _ h3 (by decide)]
    rw [e]
    exact s
  · have s := coerceFloatField_stable _ _ _ h3
    have e : lookup m' "currentCalibration" = lookup m7 "currentCalibration" := by
      rw [coerceFloatField_lookup_ne _ _ _ _ h4 (by decide)]
    rw [e]
    exact s
  · exact coerceFloatField_stable _ _ _ h4

/-! Behaviour of `main` on the paths the claims exercise. -/

theorem main_some_ok_jobj (cs : String) (kvs : Dict) (store : Store) :
    main (some cs) (.ok (.jobj kvs)) store =
      if cs = "" then (⟨500, connStrErrorBody⟩, []) else handleBody kvs store := rfl

/-- On a request that passes the shape validation, `main` is `handleValidated`. -/
theorem main_validated (cs : String) (hcs : ¬ cs = "") (kvs : Dict) (dv : JValue) (dm : Dict)
    (store : Store) (hdev : lookup kvs "deviceId" = some dv) (htru : pyTruthy dv = true)
    (hdes : lookup kvs "desired" = some (.jobj dm)) :
    main (some cs) (.ok (.jobj kvs)) store = handleValidated dv dm store := by
  rw [main_some_ok_jobj, if_neg hcs]
  unfold handleBody
  rw [hdev, hdes]
  simp [htru]

/-- On a request that fails the shape validation, `main` answers 400 with the
fixed message and makes no store call. -/
theorem main_validation_fail (cs : String) (hcs : ¬ cs = "") (kvs : Dict) (store : Store)
    (h : lookup kvs "deviceId" = none ∨
      (∃ dv, lookup kvs "deviceId" = some dv ∧ pyTruthy dv = false) ∨
      lookup kvs "desired" = none ∨
      (∃ w, lookup kvs "desired" = some w ∧ ∀ dm, w ≠ .jobj dm)) :
    main (some cs) (.ok (.jobj kvs)) store = (⟨400, validationErrorBody⟩, []) := by
  rw [main_some_ok_jobj, if_neg hcs]
  unfold handleBody
  rcases h with h | ⟨dv, hdv, htru⟩ | h | ⟨w, hw, hno⟩
  · rw [h]
  · rw [hdv]
    cases hd : lookup kvs "desired" with
    | none => rfl
    | some w =>
      cases w with
      | jobj dm => simp [htru]
      | jnull => rfl
      | jbool b => rfl
      | jint n => rfl
      | jfloat x => rfl
      | jstr s => rfl
      | jarr xs => rfl
  · rw [h]
    cases lookup kvs "deviceId" with
    | none => rfl
    | some w => rfl
  · rw [hw]
    cases hd : lookup kvs "deviceId" with
    | none => rfl
    | some dv =>
      cases w with
      | jobj dm => exact absurd rfl (hno dm)
      | jnull => rfl
      | jbool b => rfl
      | jint n => rfl
      | jfloat x => rfl
      | jstr s => rfl
      | jarr xs => rfl

/-- `handleValidated` when coercion fails with an early 400 return. -/
theorem handleValidated_resp400 (dv : JValue) (dm : Dict) (store : Store) (msg : String)
    (h : coerceDesired dm = .error (.resp400 msg)) :
    handleValidated dv dm store = (⟨400, msg⟩, []) := by
  unfold handleValidated
  rw [h]

/-- `handleValidated` when coercion raises an uncaught exception. -/
theorem handleValidated_raised (dv : JValue) (dm : Dict) (store : Store) (msg : String)
    (h : coerceDesired dm = .error (.raised msg)) :
    handleValidated dv dm store = (⟨500, serverErrorBody msg⟩, []) := by
  unfold handleValidated
  rw [h]

/-- `handleValidated` when coercion succeeds: the full store interaction. -/
theorem handleValidated_ok (dv : JValue) (dm m : Dict) (store : Store)
    (h : coerceDesired dm = .ok m) :
    handleValidated dv dm store =
      match store.getTwinResult with
      | .error e => (⟨500, serverErrorBody e⟩, [.getTwin dv])
      | .ok etag =>
        match store.updateTwinResult with
        | .error e =>
          (⟨500, serverErrorBody e⟩, [.getTwin dv, .updateTwin dv (mkPatch m) etag])
        | .ok _ =>
          (⟨200, successBody dv m⟩, [.getTwin dv, .updateTwin dv (mkPatch m) etag]) := by
  unfold handleValidated
  rw [h]

/-! The claims. -/

/-- Claim C1: for every schema-covered boolean field (`DemoMode`, `FlowState`,
`PressureState`, `VoCuState`) present in `desired`, a value that is already a
boolean is kept unchanged; a string value is mapped case-insensitively to
`true` exactly when its lowercase form is one of `"true"`, `"1"`, `"yes"`,
`"on"` and to `false` for every other string; any non-string, non-boolean
value is converted by generic truthiness; and boolean coercion never produces
an error response (`coerceBoolField` is total, so no boolean field can make
`coerceDesired` fail). Values of other keys are untouched. -/
theorem c1_bool_coercion (name : String)
    (hname : name = "DemoMode" ∨ name = "FlowState" ∨ name = "PressureState" ∨
      name = "VoCuState")
    (m : Dict) (v : JValue) (hv : lookup m name = some v) :
    (∀ k, k ≠ name → lookup (coerceBoolField name m) k = lookup m k) ∧
    (∀ b, v = .jbool b → lookup (coerceBoolField name m) name = some (.jbool b)) ∧
    (∀ s, v = .jstr s → lookup (coerceBoolField name m) name
        = some (.jbool (pyLower s == "true" || pyLower s == "1" ||
            pyLower s == "yes" || pyLower s == "on"))) ∧
    ((∀ b, v ≠ .jbool b) → (∀ s, v ≠ .jstr s) →
      lookup (coerceBoolField name m) name = some (.jbool (pyTruthy v))) := by
  refine ⟨fun k hk => coerceBoolField_lookup_ne name k m hk, ?_, ?_, ?_⟩
  · rintro b rfl
    rw [coerceBoolField_id name m (Or.inr ⟨b, hv⟩)]
    exact hv
  · rintro s rfl
    unfold coerceBoolField
    rw [hv]
    exact lookup_setKey_self m name _ _ hv
  · intro hb hs
    cases v with
    | jbool b => exact absurd rfl (hb b)
    | jstr s => exact absurd rfl (hs s)
    | jnull =>
      unfold coerceBoolField
      rw [hv]
      exact lookup_setKey_self m name _ _ hv
    | jint n =>
      unfold coerceBoolField
      rw [hv]
      exact lookup_setKey_self m name _ _ hv
    | jfloat x =>
      unfold coerceBoolField
      rw [hv]
      exact lookup_setKey_self m name _ _ hv
    | jarr xs =>
      unfold coerceBoolField
      rw [hv]
      exact lookup_setKey_self m name _ _ hv
    | jobj kvs =>
      unfold coerceBoolField
      rw [hv]
      exact lookup_setKey_self m name _ _ hv

/-- Witness for C1: the spec's own example, `{"FlowState": "On"}` coerces to
`true`. -/
theorem c1_bool_coercion_witness :
    lookup (coerceBoolField "FlowState" [("FlowState", JValue.jstr "On")]) "FlowState"
      = some (.jbool true) := by
  have h := (c1_bool_coercion "FlowState" (Or.inr (Or.inl rfl))
    [("FlowState", JValue.jstr "On")] (JValue.jstr "On") rfl).2.2.1 "On" rfl
  exact h.trans rfl

/-- Claim C3: for every parsed JSON object body in which `deviceId` is absent
or empty, or `desired` is absent or not an object, the response is HTTP 400
with body `"Request must include 'deviceId' (string) and 'desired'
(object)."` and no store call is made. -/
theorem c3_validation (cs : String) (hcs : ¬ cs = "") (kvs : Dict) (store : Store)
    (h : lookup kvs "deviceId" = none ∨ lookup kvs "deviceId" = some (.jstr "") ∨
      lookup kvs "desired" = none ∨
      (∃ w, lookup kvs "desired" = some w ∧ ∀ dm, w ≠ .jobj dm)) :
    main (some cs) (.ok (.jobj kvs)) store = (⟨400, validationErrorBody⟩, []) := by
  apply main_validation_fail cs hcs kvs store
  rcases h with h | h | h | h
  · exact Or.inl h
  · exact Or.inr (Or.inl ⟨.jstr "", h, rfl⟩)
  · exact Or.inr (Or.inr (Or.inl h))
  · exact Or.inr (Or.inr (Or.inr h))

/-- Witness for C3: a body with no fields at all, an empty `deviceId`, and a
non-object `desired` all yield the 400 with no store call. -/
theorem c3_validation_witness :
    main (some "cs") (.ok (.jobj [])) ⟨.ok "tag", .ok ()⟩
        = (⟨400, validationErrorBody⟩, []) ∧
    main (some "cs") (.ok (.jobj [("deviceId", .jstr ""), ("desired", .jobj [])]))
        ⟨.ok "tag", .ok ()⟩ = (⟨400, validationErrorBody⟩, []) ∧
    main (some "cs") (.ok (.jobj [("deviceId", .jstr "d"), ("desired", .jstr "x")]))
        ⟨.ok "tag", .ok ()⟩ = (⟨400, validationErrorBody⟩, []) := by
  refine ⟨c3_validation "cs" (by decide) [] _ (Or.inl rfl),
    c3_validation "cs" (by decide) _ _ (Or.inr (Or.inl rfl)),
    c3_validation "cs" (by decide) _ _ (Or.inr (Or.inr (Or.inr ⟨.jstr "x", rfl, ?_⟩)))⟩
  intro dm hdm
  cases hdm

/-- Claim C6: whenever the connection-string environment value is unset or
empty, the response is HTTP 500 with exactly
`"Internal error: Missing IoT Hub connection string"`; this happens whatever
the body-parse outcome (the body is never consulted), and no store call is
made. -/
theorem c6_missing_connstr (connStr : Option String) (body : Except String JValue)
    (store : Store) (h : connStr = none ∨ connStr = some "") :
    main connStr body store = (⟨500, connStrErrorBody⟩, []) := by
  rcases h with rfl | rfl
  · rfl
  · rfl

/-- Witness for C6: with the credential unset the 500 is returned even for a
body whose JSON parse would fail. -/
theorem c6_missing_connstr_witness :
    main none (.error "Expecting value: line 1 column 1 (char 0)") ⟨.ok "tag", .ok ()⟩
        = (⟨500, connStrErrorBody⟩, []) ∧
    main (some "") (.error "Expecting value: line 1 column 1 (char 0)") ⟨.ok "tag", .ok ()⟩
        = (⟨500, connStrErrorBody⟩, []) :=
  ⟨c6_missing_connstr none _ _ (Or.inl rfl), c6_missing_connstr (some "") _ _ (Or.inr rfl)⟩

/-- Claim C7: for every request that passes validation and coercion, the
handler performs exactly one `get_twin(deviceId)` call; when that call
returns a twin, it is followed by exactly one `update_twin(deviceId, patch,
tag)` call whose tag is the one returned by that `get_twin`; `update_twin`
is never called before `get_twin`, never with another tag, and never more
than once (in particular no retry when `update_twin` fails: the trace does
not depend on the update outcome). -/
theorem c7_store_trace (cs : String) (hcs : ¬ cs = "") (kvs : Dict) (dv : JValue)
    (dm m' : Dict) (store : Store)
    (hdev : lookup kvs "deviceId" = some dv) (htru : pyTruthy dv = true)
    (hdes : lookup kvs "desired" = some (.jobj dm))
    (hco : coerceDesired dm = .ok m') :
    (∀ etag, store.getTwinResult = .ok etag →
      (main (some cs) (.ok (.jobj kvs)) store).2 =
        [.getTwin dv, .updateTwin dv (mkPatch m') etag]) ∧
    (∀ e, store.getTwinResult = .error e →
      (main (some cs) (.ok (.jobj kvs)) store).2 = [.getTwin dv]) := by
  rw [main_validated cs hcs kvs dv dm store hdev htru hdes,
    handleValidated_ok dv dm m' store hco]
  constructor
  · intro etag hget
    rw [hget]
    cases store.updateTwinResult <;> rfl
  · intro e hget
    rw [hget]

/-- Witness for C7: on a concrete request the trace is exactly one `get_twin`
followed by one `update_twin` carrying the etag `get_twin` returned. -/
theorem c7_store_trace_witness :
    (main (some "cs") (.ok (.jobj [("deviceId", .jstr "dev-1"),
        ("desired", .jobj [("DemoMode", .jbool true)])])) ⟨.ok "tag", .ok ()⟩).2 =
      [.getTwin (.jstr "dev-1"),
        .updateTwin (.jstr "dev-1") (mkPatch [("DemoMode", .jbool true)]) "tag"] :=
  (c7_store_trace "cs" (by decide)
    [("deviceId", .jstr "dev-1"), ("desired", .jobj [("DemoMode", .jbool true)])]
    (.jstr "dev-1") [("DemoMode", .jbool true)]
    [("DemoMode", .jbool true)] ⟨.ok "tag", .ok ()⟩ rfl rfl rfl rfl).1 "tag" rfl

/-- Claim C8: whenever the coercion block succeeds, the resulting mapping has
exactly the same keys as the input (even in the same order), and values of
keys outside the schema are unchanged. -/
theorem c8_keys_preserved (dm m' : Dict) (h : coerceDesired dm = .ok m') :
    m'.map Prod.fst = dm.map Prod.fst ∧
    ∀ k, k ∉ schemaKeys → lookup m' k = lookup dm k :=
  ⟨coerceDesired_keys dm m' h, fun k hk => coerceDesired_lookup_ne_schema dm m' k h hk⟩

/-- Witness for C8: coercing a mapping with one schema key and one unknown key
preserves the key list. -/
theorem c8_keys_preserved_witness :
    coerceDesired [("DemoMode", JValue.jstr "yes"), ("custom", JValue.jstr "v")]
        = .ok [("DemoMode", JValue.jbool true), ("custom", JValue.jstr "v")] ∧
    ([("DemoMode", JValue.jbool true), ("custom", JValue.jstr "v")] : Dict).map Prod.fst
        = ([("DemoMode", JValue.jstr "yes"), ("custom", JValue.jstr "v")] : Dict).map
            Prod.fst :=
  ⟨rfl, (c8_keys_preserved [("DemoMode", JValue.jstr "yes"), ("custom", JValue.jstr "v")]
    [("DemoMode", JValue.jbool true), ("custom", JValue.jstr "v")] rfl).1⟩

/-- Claim C9 (implicit in the code): a boolean value in an integer-target or
float-target field passes the `isinstance` check (Python `bool` is a subclass
of `int`), is kept unchanged as a boolean, and survives the whole coercion
block as that boolean. -/
theorem c9_bool_passes_numeric (name : String) (m : Dict) (b : Bool)
    (hname : name = "DeviceModel" ∨ name = "ExternalControl" ∨
      name = "currentCalibration" ∨ name = "flowMeterCalibration")
    (hv : lookup m name = some (.jbool b)) :
    ((name = "DeviceModel" ∨ name = "ExternalControl") →
      coerceIntField name m = .ok m) ∧
    ((name = "currentCalibration" ∨ name = "flowMeterCalibration") →
      coerceFloatField name m = .ok m) ∧
    (∀ m', coerceDesired m = .ok m' → lookup m' name = some (.jbool b)) :=
  ⟨fun _ => coerceIntField_id name m (Or.inl (Or.inr ⟨b, hv⟩)),
    fun _ => coerceFloatField_id name m (Or.inl (Or.inl (Or.inr ⟨b, hv⟩))),
    fun m' h => coerceDesired_preserves_jbool m m' name b h hv⟩

/-- Witness for C9: `DeviceModel: true` and `currentCalibration: false` are
kept unchanged by their field blocks. -/
theorem c9_bool_passes_numeric_witness :
    coerceIntField "DeviceModel" [("DeviceModel", JValue.jbool true)]
        = .ok [("DeviceModel", JValue.jbool true)] ∧
    coerceFloatField "currentCalibration" [("currentCalibration", JValue.jbool false)]
        = .ok [("currentCalibration", JValue.jbool false)] :=
  ⟨(c9_bool_passes_numeric "DeviceModel" [("DeviceModel", JValue.jbool true)] true
      (Or.inl rfl) rfl).1 (Or.inl rfl),
    (c9_bool_passes_numeric "currentCalibration"
      [("currentCalibration", JValue.jbool false)] false
      (Or.inr (Or.inr (Or.inl rfl))) rfl).2.1 (Or.inl rfl)⟩

/-- Claim C10: the coercion block is idempotent — applying it to an output of
a successful pass succeeds and returns that output unchanged. -/
theorem c10_idempotent (dm m' : Dict) (h : coerceDesired dm = .ok m') :
    coerceDesired m' = .ok m' := by
  obtain ⟨s1, s2, s3, s4, s5, s6, s7, s8⟩ := coerceDesired_stable dm m' h
  simp only [coerceDesired, coerceBoolField_id "DemoMode" m' s1,
    coerceIntField_id "DeviceModel" m' s2, coerceIntField_id "ExternalControl" m' s3,
    coerceBoolField_id "FlowState" m' s4, coerceBoolField_id "PressureState" m' s5,
    coerceBoolField_id "VoCuState" m' s6, coerceFloatField_id "currentCalibration" m' s7,
    coerceFloatField_id "flowMeterCalibration" m' s8]

/-- Witness for C10: re-coercing the coerced form of `{"DemoMode": "yes"}`
returns it unchanged. -/
theorem c10_idempotent_witness :
    coerceDesired [("DemoMode", JValue.jbool true)]
      = .ok [("DemoMode", JValue.jbool true)] :=
  c10_idempotent [("DemoMode", JValue.jstr "yes")] [("DemoMode", JValue.jbool true)] rfl

/-- Claim C5: a key of `desired` outside the eight-property schema passes
through the coercion block untouched (same value after a successful pass), a
mapping made only of such keys is never rejected and never changed, and on
the success path the wire payload sent to `update_twin` is
`{"properties": {"desired": <coerced mapping>}}` built from that mapping. -/
theorem c5_unknown_passthrough (k : String) (hk : k ∉ schemaKeys) :
    (∀ dm m', coerceDesired dm = .ok m' → lookup m' k = lookup dm k) ∧
    (∀ dm, (∀ p ∈ dm, p.1 ∉ schemaKeys) → coerceDesired dm = .ok dm) ∧
    (∀ cs kvs dv dm m' store etag, ¬ cs = "" →
      lookup kvs "deviceId" = some dv → pyTruthy dv = true →
      lookup kvs "desired" = some (.jobj dm) →
      coerceDesired dm = .ok m' → store.getTwinResult = .ok etag →
      (main (some cs) (.ok (.jobj kvs)) store).2 =
        [.getTwin dv,
          .updateTwin dv (.jobj [("properties", .jobj [("desired", .jobj m')])]) etag]) := by
  refine ⟨fun dm m' h => coerceDesired_lookup_ne_schema dm m' k h hk, ?_, ?_⟩
  · intro dm hall
    have hnone : ∀ name, name ∈ schemaKeys → lookup dm name = none := fun name hn =>
      lookup_eq_none_of_forall_ne dm name (fun p hp he => (hall p hp) (he ▸ hn))
    simp only [coerceDesired,
      coerceBoolField_id "DemoMode" dm (Or.inl (hnone "DemoMode" (by simp [schemaKeys]))),
      coerceIntField_id "DeviceModel" dm
        (Or.inl (Or.inl (hnone "DeviceModel" (by simp [schemaKeys])))),
      coerceIntField_id "ExternalControl" dm
        (Or.inl (Or.inl (hnone "ExternalControl" (by simp [schemaKeys])))),
      coerceBoolField_id "FlowState" dm (Or.inl (hnone "FlowState" (by simp [schemaKeys]))),
      coerceBoolField_id "PressureState" dm
        (Or.inl (hnone "PressureState" (by simp [schemaKeys]))),
      coerceBoolField_id "VoCuState" dm (Or.inl (hnone "VoCuState" (by simp [schemaKeys]))),
      coerceFloatField_id "currentCalibration" dm
        (Or.inl (Or.inl (Or.inl (hnone "currentCalibration" (by simp [schemaKeys]))))),
      coerceFloatField_id "flowMeterCalibration" dm
        (Or.inl (Or.inl (Or.inl (hnone "flowMeterCalibration" (by simp [schemaKeys])))))]
  · intro cs kvs dv dm m' store etag hcs hdev htru hdes hco hget
    rw [main_validated cs hcs kvs dv dm store hdev htru hdes,
      handleValidated_ok dv dm m' store hco, hget]
    cases store.updateTwinResult <;> rfl

/-- Witness for C5: `{"customKey": "val"}` passes untouched through coercion
and appears verbatim in the wire payload. -/
theorem c5_unknown_passthrough_witness :
    coerceDesired [("customKey", JValue.jstr "val")]
        = .ok [("customKey", JValue.jstr "val")] ∧
    (main (some "cs") (.ok (.jobj [("deviceId", .jstr "dev-1"),
        ("desired", .jobj [("customKey", .jstr "val")])])) ⟨.ok "tag", .ok ()⟩).2 =
      [.getTwin (.jstr "dev-1"),
        .updateTwin (.jstr "dev-1")
          (.jobj [("properties", .jobj [("desired",
            .jobj [("customKey", .jstr "val")])])]) "tag"] :=
  ⟨(c5_unknown_passthrough "customKey" (by decide)).2.1
      [("customKey", JValue.jstr "val")] (by decide),
    (c5_unknown_passthrough "customKey" (by decide)).2.2 "cs"
      [("deviceId", .jstr "dev-1"), ("desired", .jobj [("customKey", .jstr "val")])]
      (.jstr "dev-1") [("customKey", .jstr "val")] [("customKey", .jstr "val")]
      ⟨.ok "tag", .ok ()⟩ "tag" (by decide) rfl rfl rfl rfl rfl⟩

/-- Counterexample to Claim C2 as stated: for `{"DeviceModel": null}` the
conversion fails (`int(None)` raises `TypeError`, which `except ValueError`
does not catch), and the response is the catch-all HTTP 500, not the claimed
HTTP 400 with `"DeviceModel must be a valid integer."`. -/
theorem c2_int_coercion_counterexample :
    main (some "cs") (.ok (.jobj [("deviceId", .jstr "dev-1"),
        ("desired", .jobj [("DeviceModel", .jnull)])])) ⟨.ok "tag", .ok ()⟩
      = (⟨500, serverErrorBody (intTypeErrMsg "NoneType")⟩, []) ∧
    (main (some "cs") (.ok (.jobj [("deviceId", .jstr "dev-1"),
        ("desired", .jobj [("DeviceModel", .jnull)])])) ⟨.ok "tag", .ok ()⟩).1
      ≠ ⟨400, "DeviceModel must be a valid integer."⟩ :=
  ⟨rfl, by decide⟩

/-- Claim C2 as amended: for the integer fields `DeviceModel` and
`ExternalControl`, a value that is already an integer — booleans included —
is kept unchanged; a string value is parsed with `int()`, a parsable string
becoming the parsed integer; a string whose parse fails yields HTTP 400 with
body `"<Field> must be a valid integer."` and no store call; and a null value
raises an uncaught `TypeError`, surfacing as the catch-all HTTP 500 with no
store call (only `ValueError` is caught). -/
theorem c2_int_coercion (name : String)
    (hname : name = "DeviceModel" ∨ name = "ExternalControl") (m : Dict) :
    (∀ n, lookup m name = some (.jint n) → coerceIntField name m = .ok m) ∧
    (∀ b, lookup m name = some (.jbool b) → coerceIntField name m = .ok m) ∧
    (∀ s n, lookup m name = some (.jstr s) → pyIntOfString s = some n →
      coerceIntField name m = .ok (setKey m name (.jint n))) ∧
    (∀ s, lookup m name = some (.jstr s) → pyIntOfString s = none →
      coerceIntField name m = .error (.resp400 (name ++ " must be a valid integer."))) ∧
    (lookup m name = some .jnull →
      coerceIntField name m = .error (.raised (intTypeErrMsg "NoneType"))) ∧
    (∀ cs kvs dv store msg, ¬ cs = "" → lookup kvs "deviceId" = some dv →
      pyTruthy dv = true → lookup kvs "desired" = some (.jobj m) →
      (coerceDesired m = .error (.resp400 msg) →
        main (some cs) (.ok (.jobj kvs)) store = (⟨400, msg⟩, [])) ∧
      (coerceDesired m = .error (.raised msg) →
        main (some cs) (.ok (.jobj kvs)) store = (⟨500, serverErrorBody msg⟩, []))) := by
  refine ⟨fun n hv => coerceIntField_id name m (Or.inr ⟨n, hv⟩),
    fun b hv => coerceIntField_id name m (Or.inl (Or.inr ⟨b, hv⟩)),
    fun s n hv hp => coerceIntField_jstr_ok name m s n hv hp,
    fun s hv hp => coerceIntField_jstr_fail name m s hv hp,
    fun hv => coerceIntField_raised name m .jnull _ hv rfl,
    ?_⟩
  intro cs kvs dv store msg hcs hdev htru hdes
  exact ⟨fun hco => by
      rw [main_validated cs hcs kvs dv m store hdev htru hdes,
        handleValidated_resp400 dv m store msg hco],
    fun hco => by
      rw [main_validated cs hcs kvs dv m store hdev htru hdes,
        handleValidated_raised dv m store msg hco]⟩

/-- Witness for the amended C2: `"2"` parses to `2`, `"abc"` yields the 400
with the exact body and an empty store trace. -/
theorem c2_int_coercion_witness :
    coerceIntField "DeviceModel" [("DeviceModel", JValue.jstr "2")]
        = .ok [("DeviceModel", JValue.jint 2)] ∧
    main (some "cs") (.ok (.jobj [("deviceId", .jstr "d"),
        ("desired", .jobj [("DeviceModel", .jstr "abc")])])) ⟨.ok "tag", .ok ()⟩
      = (⟨400, "DeviceModel must be a valid integer."⟩, []) := by
  constructor
  · exact ((c2_int_coercion "DeviceModel" (Or.inl rfl)
      [("DeviceModel", JValue.jstr "2")]).2.2.1 "2" 2 rfl rfl).trans rfl
  · exact ((c2_int_coercion "DeviceModel" (Or.inl rfl)
      [("DeviceModel", JValue.jstr "abc")]).2.2.2.2.2 "cs"
      [("deviceId", .jstr "d"), ("desired", .jobj [("DeviceModel", .jstr "abc")])]
      (.jstr "d") ⟨.ok "tag", .ok ()⟩ "DeviceModel must be a valid integer."
      (by decide) rfl rfl rfl).1 rfl

/-- Counterexample to Claim C4 as stated: for `{"currentCalibration": null}`
the conversion fails (`float(None)` raises `TypeError`, which `except
ValueError` does not catch), and the response is the catch-all HTTP 500, not
the claimed HTTP 400 with `"currentCalibration must be a valid number."`. -/
theorem c4_float_coercion_counterexample :
    main (some "cs") (.ok (.jobj [("deviceId", .jstr "dev-1"),
        ("desired", .jobj [("currentCalibration", .jnull)])])) ⟨.ok "tag", .ok ()⟩
      = (⟨500, serverErrorBody (floatTypeErrMsg "NoneType")⟩, []) ∧
    (main (some "cs") (.ok (.jobj [("deviceId", .jstr "dev-1"),
        ("desired", .jobj [("currentCalibration", .jnull)])])) ⟨.ok "tag", .ok ()⟩).1
      ≠ ⟨400, "currentCalibration must be a valid number."⟩ :=
  ⟨rfl, by decide⟩

/-- Claim C4 as amended: for the float fields `currentCalibration` and
`flowMeterCalibration`, a value that is already a number — booleans, integers
and floats — is kept unchanged; a string value is parsed with `float()`, a
parsable string (such as `"3.5"`) becoming the parsed float; a string whose
parse fails yields HTTP 400 with body `"<Field> must be a valid number."` and
no store call; and a null value raises an uncaught `TypeError`, surfacing as
the catch-all HTTP 500 with no store call (only `ValueError` is caught). -/
theorem c4_float_coercion (name : String)
    (hname : name = "currentCalibration" ∨ name = "flowMeterCalibration") (m : Dict) :
    (∀ x, lookup m name = some (.jfloat x) → coerceFloatField name m = .ok m) ∧
    (∀ n, lookup m name = some (.jint n) → coerceFloatField name m = .ok m) ∧
    (∀ b, lookup m name = some (.jbool b) → coerceFloatField name m = .ok m) ∧
    (∀ s x, lookup m name = some (.jstr s) → pyFloatOfString s = some x →
      coerceFloatField name m = .ok (setKey m name (.jfloat x))) ∧
    (∀ s, lookup m name = some (.jstr s) → pyFloatOfString s = none →
      coerceFloatField name m = .error (.resp400 (name ++ " must be a valid number."))) ∧
    (lookup m name = some .jnull →
      coerceFloatField name m = .error (.raised (floatTypeErrMsg "NoneType"))) ∧
    (∀ cs kvs dv store msg, ¬ cs = "" → lookup kvs "deviceId" = some dv →
      pyTruthy dv = true → lookup kvs "desired" = some (.jobj m) →
      (coerceDesired m = .error (.resp400 msg) →
        main (some cs) (.ok (.jobj kvs)) store = (⟨400, msg⟩, [])) ∧
      (coerceDesired m = .error (.raised msg) →
        main (some cs) (.ok (.jobj kvs)) store = (⟨500, serverErrorBody msg⟩, []))) := by
  refine ⟨fun x hv => coerceFloatField_id name m (Or.inr ⟨x, hv⟩),
    fun n hv => coerceFloatField_id name m (Or.inl (Or.inr ⟨n, hv⟩)),
    fun b hv => coerceFloatField_id name m (Or.inl (Or.inl (Or.inr ⟨b, hv⟩))),
    fun s x hv hp => coerceFloatField_jstr_ok name m s x hv hp,
    fun s hv hp => coerceFloatField_jstr_fail name m s hv hp,
    fun hv => coerceFloatField_raised name m .jnull _ hv rfl,
    ?_⟩
  intro cs kvs dv store msg hcs hdev htru hdes
  exact ⟨fun hco => by
      rw [main_validated cs hcs kvs dv m store hdev htru hdes,
        handleValidated_resp400 dv m store msg hco],
    fun hco => by
      rw [main_validated cs hcs kvs dv m store hdev htru hdes,
        handleValidated_raised dv m store msg hco]⟩

/-- Witness for the amended C4: `"3.5"` parses to the float `7/2`, `"xyz"`
yields the 400 with the exact body and an empty store trace. -/
theorem c4_float_coercion_witness :
    coerceFloatField "currentCalibration" [("currentCalibration", JValue.jstr "3.5")]
        = .ok [("currentCalibration", JValue.jfloat (.finite (mkRat 7 2)))] ∧
    main (some "cs") (.ok (.jobj [("deviceId", .jstr "d"),
        ("desired", .jobj [("currentCalibration", .jstr "xyz")])])) ⟨.ok "tag", .ok ()⟩
      = (⟨400, "currentCalibration must be a valid number."⟩, []) := by
  constructor
  · exact ((c4_float_coercion "currentCalibration" (Or.inl rfl)
      [("currentCalibration", JValue.jstr "3.5")]).2.2.2.1 "3.5" (.finite (mkRat 7 2))
      rfl rfl).trans rfl
  · exact ((c4_float_coercion "currentCalibration" (Or.inl rfl)
      [("currentCalibration", JValue.jstr "xyz")]).2.2.2.2.2.2 "cs"
      [("deviceId", .jstr "d"), ("desired", .jobj [("currentCalibration", .jstr "xyz")])]
      (.jstr "d") ⟨.ok "tag", .ok ()⟩ "currentCalibration must be a valid number."
      (by decide) rfl rfl rfl).1 rfl

end UpdateDeviceTwin
